import Mathlib

/-!
Verification development for the driver-safety system
(drowsiness detector, vitals fusion model, risk aggregation, alert dispatch).

The definitions below are shallow embeddings of the Python sources:
  * `detect_drowsiness.py` — EAR/MAR geometry and the per-frame
    drowsiness/blink/yawn state machine (`DrowsinessDetector.process_frame`);
  * `heart_rate_model.py` — the weighted-average fusion of the two
    classifiers' probability vectors (`_fuse_predictions` / `predict`);
  * `alert.py` — the cooldown-gated alert dispatcher (`trigger_alert`);
  * the tier aggregation contract of the design document (no tier-level
    aggregator exists in the sources; it is modelled from the document).

Python machine floats are modelled by exact rationals where only finite
arithmetic occurs, and by an explicit `FVal` type (finite / inf / nan)
where the source can divide by zero.  Python `int` is `ℤ`.  Wall-clock
times are rationals.
-/

namespace DriverSafety

/-! ## Python-style rounding

`round(x, n)` in Python rounds half to even.  `bankerRound` is that rule on
exact rationals; `roundTo` scales it to `n` decimal places. -/

/-- Round half to even, as Python's builtin `round` does on ties. -/
def bankerRound (x : ℚ) : ℤ :=
  let f : ℤ := ⌊x⌋
  let r : ℚ := x - f
  if r < 1/2 then f
  else if 1/2 < r then f + 1
  else if f % 2 = 0 then f else f + 1

/-- `roundTo n x` models Python `round(x, n)` on exact rationals. -/
def roundTo (n : ℕ) (x : ℚ) : ℚ :=
  (bankerRound (x * (10 : ℚ) ^ n) : ℚ) / (10 : ℚ) ^ n

/-! ## Drowsiness state machine (`detect_drowsiness.py`)

Constants from the top of the file. -/

def EAR_THRESHOLD : ℚ := 1/4        -- 0.25
def EAR_CONSEC_FRAMES : ℤ := 20
def YAWN_THRESHOLD : ℚ := 3/5       -- 0.6

/-- Mutable session state of `DrowsinessDetector` (`__init__`):
`counter`, `blink_count`, `yawn_count`, `drowsy`, `yawning`.
Python integers are modelled as `ℤ`. -/
structure DState where
  counter : ℤ
  blink_count : ℤ
  yawn_count : ℤ
  drowsy : Bool
  yawning : Bool
deriving DecidableEq, Repr

/-- The freshly constructed detector state. -/
def initState : DState :=
  { counter := 0, blink_count := 0, yawn_count := 0,
    drowsy := false, yawning := false }

/-- The `status` dict returned by `process_frame`.  Note that the source
fills `blink_count` with the post-update value when a blink fires (it
re-assigns the key inside the blink branch) but leaves `yawn_count` at the
value it had when the dict was built, before any yawn update. -/
structure DStatus where
  face_detected : Bool
  ear : ℚ
  mar : ℚ
  blink_count : ℤ
  yawn_count : ℤ
  drowsy : Bool
  yawning : Bool
  risk_level : String
deriving DecidableEq, Repr

/-- One frame observation: `none` when the face detector returns no
rectangles, `some (ear, mar)` when a face is found and the geometry for the
frame evaluates to the given (finite) EAR and MAR values. -/
def FrameObs : Type := Option (ℚ × ℚ)

/-- Shallow embedding of `DrowsinessDetector.process_frame` for a frame
with at most one detected face: the `none` branch is the skipped
`for rect in rects` loop, and the `some` branch is one execution of that
loop's body, which is also the per-face state update a multi-face frame
repeats (see `processFrameFaces`).  The drawing and text overlay calls
have no effect on state or status and are omitted. -/
def process_frame (s : DState) (obs : Option (ℚ × ℚ)) : DState × DStatus :=
  match obs with
  | none =>
      -- no face: the loop body is skipped; status keeps the defaults and
      -- the pre-frame counters; risk is computed from the status fields.
      let risk := if s.yawn_count ≥ 3 then "WARNING" else "NORMAL"
      (s, { face_detected := false, ear := 0, mar := 0,
            blink_count := s.blink_count, yawn_count := s.yawn_count,
            drowsy := false, yawning := false, risk_level := risk })
  | some (ear, mar) =>
      -- eyes
      let counter' : ℤ := if ear < EAR_THRESHOLD then s.counter + 1 else 0
      let statusDrowsy : Bool :=
        decide (ear < EAR_THRESHOLD) && decide (counter' ≥ EAR_CONSEC_FRAMES)
      let drowsy' : Bool :=
        if ear < EAR_THRESHOLD then
          (if counter' ≥ EAR_CONSEC_FRAMES then true else s.drowsy)
        else false
      let blink' : ℤ :=
        if ear < EAR_THRESHOLD then s.blink_count
        else if s.counter ≥ 3 then s.blink_count + 1 else s.blink_count
      -- mouth
      let yawn' : ℤ :=
        if mar > YAWN_THRESHOLD then
          (if s.yawning then s.yawn_count else s.yawn_count + 1)
        else s.yawn_count
      let yawning' : Bool := decide (mar > YAWN_THRESHOLD)
      -- risk level, computed from the status fields: `drowsy` and
      -- `yawning` are the current-frame flags, `yawn_count` is the
      -- pre-update value written when the dict was built.
      let risk :=
        if statusDrowsy && yawning' then "CRITICAL"
        else if statusDrowsy || decide (s.yawn_count ≥ 3) then "WARNING"
        else "NORMAL"
      ({ counter := counter', blink_count := blink', yawn_count := yawn',
         drowsy := drowsy', yawning := yawning' },
       { face_detected := true, ear := roundTo 3 ear, mar := roundTo 3 mar,
         blink_count := blink', yawn_count := s.yawn_count,
         drowsy := statusDrowsy, yawning := yawning',
         risk_level := risk })

/-- State component of one `process_frame` call. -/
def stepState (s : DState) (obs : Option (ℚ × ℚ)) : DState :=
  (process_frame s obs).1

/-- Run `process_frame` over a whole frame sequence, keeping the state. -/
def runFrames (s : DState) (l : List (Option (ℚ × ℚ))) : DState :=
  l.foldl stepState s

/-- State effect of one `process_frame` call on a frame with an arbitrary
list of detected faces: the source's `for rect in rects` loop runs the
per-face body (the `some` case of `process_frame`) once per rectangle, in
order, against the shared detector state.  The empty list is a no-face
frame. -/
def processFrameFaces (s : DState) (faces : List (ℚ × ℚ)) : DState :=
  faces.foldl (fun t f => stepState t (some f)) s

/-- Run multi-face `process_frame` calls over a sequence of frames, each
frame given by its list of detected faces. -/
def runFramesFaces (s : DState) (frames : List (List (ℚ × ℚ))) : DState :=
  frames.foldl processFrameFaces s

/-- A closed-eye frame (EAR 0.10) with a neutral mouth. -/
def lowFrame : Option (ℚ × ℚ) := some (1/10, 1/2)

/-- An eyes-open frame (EAR 0.30) with a neutral mouth. -/
def openFrame : Option (ℚ × ℚ) := some (3/10, 1/2)

/-- An eyes-open frame with the mouth wide open (MAR 0.7 > 0.6). -/
def yawnFrame : Option (ℚ × ℚ) := some (3/10, 7/10)

/-- An eyes-open frame with the mouth relaxed (MAR 0.5 < 0.6). -/
def calmFrame : Option (ℚ × ℚ) := some (3/10, 1/2)

end DriverSafety

namespace DriverSafety

/-! ## Theorems about the drowsiness state machine -/

/-- C7: with a face detected, each frame with `ear < EAR_THRESHOLD`
increments the consecutive closed-eye counter and `is_drowsy` becomes true
once the counter reaches `EAR_CONSEC_FRAMES`; each eye-open frame resets
the counter to 0 and `is_drowsy` to false.  Concretely, after 20 frames of
EAR 0.10 the state is drowsy (and was not yet at frame 19), and one more
frame of EAR 0.30 resets the counter and the flag. -/
theorem drowsy_counter_spec :
    (∀ (s : DState) (ear mar : ℚ),
      (stepState s (some (ear, mar))).counter =
        (if ear < EAR_THRESHOLD then s.counter + 1 else 0) ∧
      (stepState s (some (ear, mar))).drowsy =
        (if ear < EAR_THRESHOLD then
          (if s.counter + 1 ≥ EAR_CONSEC_FRAMES then true else s.drowsy)
         else false)) ∧
    (runFrames initState (List.replicate 19 lowFrame)).drowsy = false ∧
    (runFrames initState (List.replicate 20 lowFrame)).drowsy = true ∧
    (runFrames initState (List.replicate 20 lowFrame ++ [openFrame])).drowsy
      = false ∧
    (runFrames initState (List.replicate 20 lowFrame ++ [openFrame])).counter
      = 0 := by
  refine ⟨fun s ear mar => ⟨?_, ?_⟩, ?_, ?_, ?_, ?_⟩
  · norm_num [stepState, process_frame, EAR_THRESHOLD]
  · by_cases h : ear < EAR_THRESHOLD
    · by_cases h2 : EAR_CONSEC_FRAMES ≤ s.counter + 1 <;>
        simp [stepState, process_frame, h, h2]
    · simp [stepState, process_frame, h]
  all_goals
    norm_num [runFrames, stepState, process_frame, lowFrame, openFrame,
      EAR_THRESHOLD, EAR_CONSEC_FRAMES, YAWN_THRESHOLD, initState,
      List.replicate]

/-- C1 counterexample: a closed-eye run of length exactly
`EAR_CONSEC_FRAMES = 20` ended by an eye-open frame DOES increment
`blink_count` (from 0 to 1), because the source only checks the lower
debounce bound `counter >= 3` and has no upper bound, contradicting the
claim that runs of length ≥ `EAR_CONSEC_FRAMES` do not count as blinks. -/
theorem blink_after_drowsy_run :
    (runFrames initState (List.replicate 20 lowFrame)).blink_count = 0 ∧
    (runFrames initState (List.replicate 20 lowFrame ++ [openFrame])).blink_count = 1 := by
  refine ⟨?_, ?_⟩ <;>
    norm_num [runFrames, stepState, process_frame, lowFrame, openFrame,
      EAR_THRESHOLD, EAR_CONSEC_FRAMES, YAWN_THRESHOLD, initState,
      List.replicate]

/-- C1 amended: when an eye-open frame (`ear ≥ EAR_THRESHOLD`) ends a
closed-eye run, `blink_count` is incremented exactly when the ended run
length is ≥ 3, with no upper bound — in particular a run of length
≥ `EAR_CONSEC_FRAMES` that ends also increments `blink_count`. -/
theorem blink_increment_spec :
    ∀ (s : DState) (ear mar : ℚ), EAR_THRESHOLD ≤ ear →
      (stepState s (some (ear, mar))).blink_count =
        (if 3 ≤ s.counter then s.blink_count + 1 else s.blink_count) := by
  intro s ear mar h
  simp only [stepState, process_frame]
  rw [if_neg (not_lt.mpr h)]

/-- Witness for `blink_increment_spec` at an ended run of length 20. -/
theorem blink_increment_spec_witness :
    (stepState ⟨20, 0, 0, true, false⟩ (some (3/10, 1/2))).blink_count =
      (if (3:ℤ) ≤ 20 then (0:ℤ) + 1 else 0) :=
  blink_increment_spec ⟨20, 0, 0, true, false⟩ (3/10) (1/2)
    (by norm_num [EAR_THRESHOLD])

end DriverSafety

namespace DriverSafety

/-- C2 amended: on a frame with no face detected, the state (all counters
and flags) is left unchanged and the status carries `face_detected = false`
with the pre-frame blink and yawn counts; however the emitted risk tier is
NORMAL only while the session yawn count is below 3 — the final risk
computation reads the status yawn count even when no face was seen, so a
session with `yawn_count ≥ 3` emits WARNING on a no-face frame. -/
theorem no_face_spec :
    ∀ s : DState,
      (process_frame s none).1 = s ∧
      (process_frame s none).2.face_detected = false ∧
      (process_frame s none).2.blink_count = s.blink_count ∧
      (process_frame s none).2.yawn_count = s.yawn_count ∧
      (process_frame s none).2.risk_level =
        (if s.yawn_count ≥ 3 then "WARNING" else "NORMAL") := by
  intro s
  refine ⟨rfl, rfl, rfl, rfl, rfl⟩

/-- C2 counterexample: after three yawns (mouth-open / mouth-closed frames
alternating, yawn count 3), a no-face frame is emitted with
`face_detected = false` but risk tier WARNING, not NORMAL as claimed. -/
theorem no_face_warning_cex :
    (runFrames initState
        [yawnFrame, calmFrame, yawnFrame, calmFrame, yawnFrame]).yawn_count
      = 3 ∧
    (process_frame (runFrames initState
        [yawnFrame, calmFrame, yawnFrame, calmFrame, yawnFrame])
        none).2.face_detected = false ∧
    (process_frame (runFrames initState
        [yawnFrame, calmFrame, yawnFrame, calmFrame, yawnFrame])
        none).2.risk_level = "WARNING" := by
  refine ⟨?_, ?_, ?_⟩ <;>
    norm_num [runFrames, stepState, process_frame, yawnFrame, calmFrame,
      EAR_THRESHOLD, EAR_CONSEC_FRAMES, YAWN_THRESHOLD, initState]

/-- Bounds for one execution of the per-face loop body (or a skipped
loop): the blink and yawn counts never decrease and grow by at most 1,
and a non-negative closed-eye counter stays non-negative. -/
theorem stepState_counter_bounds :
    ∀ (s : DState) (obs : Option (ℚ × ℚ)),
      (0 ≤ s.counter → 0 ≤ (stepState s obs).counter) ∧
      s.blink_count ≤ (stepState s obs).blink_count ∧
      (stepState s obs).blink_count ≤ s.blink_count + 1 ∧
      s.yawn_count ≤ (stepState s obs).yawn_count ∧
      (stepState s obs).yawn_count ≤ s.yawn_count + 1 := by
  intro s obs
  rcases obs with _ | ⟨ear, mar⟩
  · simp [stepState, process_frame]
  · simp only [stepState, process_frame]
    refine ⟨?_, ?_, ?_, ?_, ?_⟩ <;> split_ifs <;> omega

/-- C9 counterexample: one `process_frame` call on a frame with three
detected faces of MAR 0.7, 0.5, 0.7 (eyes open) increments `yawn_count`
by 2 — the middle face resets the `yawning` flag, so the per-frame
increase of `yawn_count` is not bounded by 1. -/
theorem multi_face_yawn_cex :
    initState.yawn_count = 0 ∧
    (processFrameFaces initState
        [(3/10, 7/10), (3/10, 1/2), (3/10, 7/10)]).yawn_count = 2 := by
  refine ⟨rfl, ?_⟩
  norm_num [processFrameFaces, stepState, process_frame, EAR_THRESHOLD,
    EAR_CONSEC_FRAMES, YAWN_THRESHOLD, initState]

/-- C9 amended: `blink_count` and `yawn_count` never decrease, each grows
by at most 1 per detected face — hence by at most the number of detected
faces in a frame, which can exceed 1 on a multi-face frame — and the
closed-eye counter stays non-negative; over any sequence of frames the
blink and yawn counts are monotonically non-decreasing and the counter
stays non-negative. -/
theorem counters_monotone_faces :
    (∀ (s : DState) (f : ℚ × ℚ),
      (0 ≤ s.counter → 0 ≤ (stepState s (some f)).counter) ∧
      s.blink_count ≤ (stepState s (some f)).blink_count ∧
      (stepState s (some f)).blink_count ≤ s.blink_count + 1 ∧
      s.yawn_count ≤ (stepState s (some f)).yawn_count ∧
      (stepState s (some f)).yawn_count ≤ s.yawn_count + 1) ∧
    (∀ (s : DState) (faces : List (ℚ × ℚ)),
      s.blink_count ≤ (processFrameFaces s faces).blink_count ∧
      (processFrameFaces s faces).blink_count
        ≤ s.blink_count + faces.length ∧
      s.yawn_count ≤ (processFrameFaces s faces).yawn_count ∧
      (processFrameFaces s faces).yawn_count
        ≤ s.yawn_count + faces.length ∧
      (0 ≤ s.counter → 0 ≤ (processFrameFaces s faces).counter)) ∧
    (∀ (s : DState) (frames : List (List (ℚ × ℚ))),
      s.blink_count ≤ (runFramesFaces s frames).blink_count ∧
      s.yawn_count ≤ (runFramesFaces s frames).yawn_count ∧
      (0 ≤ s.counter → 0 ≤ (runFramesFaces s frames).counter)) := by
  have frame : ∀ (s : DState) (faces : List (ℚ × ℚ)),
      s.blink_count ≤ (processFrameFaces s faces).blink_count ∧
      (processFrameFaces s faces).blink_count
        ≤ s.blink_count + faces.length ∧
      s.yawn_count ≤ (processFrameFaces s faces).yawn_count ∧
      (processFrameFaces s faces).yawn_count
        ≤ s.yawn_count + faces.length ∧
      (0 ≤ s.counter → 0 ≤ (processFrameFaces s faces).counter) := by
    intro s faces
    induction faces generalizing s with
    | nil => simp [processFrameFaces]
    | cons f t ih =>
        obtain ⟨hc, hb1, hb2, hy1, hy2⟩ :=
          stepState_counter_bounds s (some f)
        obtain ⟨ib1, ib2, iy1, iy2, ic⟩ := ih (stepState s (some f))
        have hrw : processFrameFaces s (f :: t)
            = processFrameFaces (stepState s (some f)) t := rfl
        rw [hrw]
        simp only [List.length_cons]
        push_cast
        refine ⟨by omega, by omega, by omega, by omega,
          fun h0 => ic (hc h0)⟩
  refine ⟨fun s f => stepState_counter_bounds s (some f), frame,
    fun s frames => ?_⟩
  induction frames generalizing s with
  | nil => simp [runFramesFaces]
  | cons fs t ih =>
      obtain ⟨hb1, _, hy1, _, hc⟩ := frame s fs
      obtain ⟨ib, iy, ic⟩ := ih (processFrameFaces s fs)
      have hrw : runFramesFaces s (fs :: t)
          = runFramesFaces (processFrameFaces s fs) t := rfl
      rw [hrw]
      exact ⟨le_trans hb1 ib, le_trans hy1 iy, fun h0 => ic (hc h0)⟩

/-- Witness for `counters_monotone_faces`: instantiated at the initial
state, one concrete face, a concrete two-face frame, and a concrete frame
sequence, discharging the non-negative-counter hypotheses there. -/
theorem counters_monotone_faces_witness :
    (0 ≤ (stepState initState (some (1/10, 1/2))).counter ∧
      initState.blink_count
        ≤ (stepState initState (some (1/10, 1/2))).blink_count) ∧
    ((processFrameFaces initState
          [(3/10, 7/10), (3/10, 7/10)]).yawn_count
        ≤ initState.yawn_count + ([(3/10, 7/10), (3/10, 7/10)] :
            List (ℚ × ℚ)).length ∧
      0 ≤ (processFrameFaces initState
          [(3/10, 7/10), (3/10, 7/10)]).counter) ∧
    (initState.blink_count
        ≤ (runFramesFaces initState [[(1/10, 1/2)], []]).blink_count ∧
      0 ≤ (runFramesFaces initState [[(1/10, 1/2)], []]).counter) :=
  ⟨⟨(counters_monotone_faces.1 initState (1/10, 1/2)).1
      (by norm_num [initState]),
    (counters_monotone_faces.1 initState (1/10, 1/2)).2.1⟩,
   ⟨(counters_monotone_faces.2.1 initState
        [(3/10, 7/10), (3/10, 7/10)]).2.2.2.1,
    (counters_monotone_faces.2.1 initState
        [(3/10, 7/10), (3/10, 7/10)]).2.2.2.2 (by norm_num [initState])⟩,
   ⟨(counters_monotone_faces.2.2 initState [[(1/10, 1/2)], []]).1,
    (counters_monotone_faces.2.2 initState [[(1/10, 1/2)], []]).2.2
      (by norm_num [initState])⟩⟩

end DriverSafety

namespace DriverSafety

/-! ## Alert dispatcher (`alert.py`)

`_last_alert_time` is the module-level dict from risk-level strings to the
time of the last non-suppressed alert; `trigger_alert` consults it, and the
wall clock `now`, before building the alert dict.  Times are rationals. -/

/-- The `_last_alert_time` dict: `none` models an absent key. -/
def AlertState : Type := String → Option ℚ

/-- The `COOLDOWN_SECONDS` dict. -/
def COOLDOWN_SECONDS (risk : String) : Option ℚ :=
  if risk = "NORMAL" then some 5
  else if risk = "WARNING" then some 10
  else if risk = "CRITICAL" then some 3
  else none

/-- `COOLDOWN_SECONDS.get(risk_level, 5)`. -/
def cooldownOf (risk : String) : ℚ := (COOLDOWN_SECONDS risk).getD 5

/-- The `messages` dict lookup with its `"Unknown risk level"` default. -/
def messagesGet (risk : String) : String :=
  if risk = "NORMAL" then
    "Driver status is NORMAL. All readings within safe range."
  else if risk = "WARNING" then
    "WARNING! Signs of fatigue or elevated heart rate detected."
  else if risk = "CRITICAL" then
    "CRITICAL ALERT! Immediate danger - pull over now!"
  else "Unknown risk level"

/-- The `actions` dict lookup with its empty-string default. -/
def actionsGet (risk : String) : String :=
  if risk = "NORMAL" then "Continue monitoring."
  else if risk = "WARNING" then "Recommend rest break in 15 minutes."
  else if risk = "CRITICAL" then "STOP VEHICLE IMMEDIATELY. Sound alarm."
  else ""

/-- The alert dict built on the non-suppressed path (the source also
carries a `details` mapping, passed through unchanged, and formats the
timestamp as text; neither affects any claim). -/
structure AlertRecord where
  timestamp : ℚ
  risk_level : String
  source : String
  message : String
  action : String
  suppressed : Bool
deriving DecidableEq, Repr

/-- Result of one `trigger_alert` call: the early-return suppressed dict
(which carries only the risk level), or the full alert dict together with
whether a background beep thread was started (the only side effect). -/
inductive AlertResult where
  | suppressed (risk_level : String)
  | fired (record : AlertRecord) (soundRequested : Bool)
deriving DecidableEq, Repr

/-- Whether the call returned a non-suppressed alert. -/
def AlertResult.isFired : AlertResult → Bool
  | .suppressed _ => false
  | .fired _ _ => true

/-- The `_last_alert_time[risk_level] = now` assignment. -/
def alertUpdate (last : AlertState) (risk : String) (now : ℚ) : AlertState :=
  fun r => if r = risk then some now else last r

/-- Shallow embedding of `trigger_alert`: cooldown check against
`_last_alert_time`, then timestamp update, alert dict construction, and
the sound request for WARNING/CRITICAL.  Console printing is omitted. -/
def trigger_alert (last : AlertState) (risk source : String) (now : ℚ) :
    AlertResult × AlertState :=
  let cooldown := cooldownOf risk
  let fire : AlertResult × AlertState :=
    (.fired { timestamp := now, risk_level := risk, source := source,
              message := messagesGet risk, action := actionsGet risk,
              suppressed := false }
        (decide (risk = "WARNING") || decide (risk = "CRITICAL")),
     alertUpdate last risk now)
  match last risk with
  | some t => if now - t < cooldown then (.suppressed risk, last) else fire
  | none => fire

/-- A call that fires commits its own time into the tracker. -/
theorem trigger_alert_fired_state (last : AlertState) (risk source : String)
    (now : ℚ) (h : (trigger_alert last risk source now).1.isFired = true) :
    (trigger_alert last risk source now).2 = alertUpdate last risk now := by
  unfold trigger_alert at h ⊢
  rcases hl : last risk with _ | t <;> simp [hl] at h ⊢
  split_ifs at h ⊢ with hc
  · simp [AlertResult.isFired] at h
  · rfl

end DriverSafety

namespace DriverSafety

/-- C4: the per-tier cooldowns default to NORMAL=5s, WARNING=10s,
CRITICAL=3s; after a call that fires at `t1`, the tracker holds `t1` for
that tier, any call for the same tier at `t2` with `t2 - t1 < cooldown`
returns the suppressed record and leaves the tracker untouched (and, being
the early return, starts no beep thread), and any call with
`t2 - t1 ≥ cooldown` fires again and moves the tracker to `t2` — so two
non-suppressed alerts of one tier are never closer than its cooldown. -/
theorem cooldown_suppression_spec :
    cooldownOf "NORMAL" = 5 ∧ cooldownOf "WARNING" = 10 ∧
    cooldownOf "CRITICAL" = 3 ∧
    ∀ (last : AlertState) (risk src1 src2 : String) (t1 t2 : ℚ),
      (trigger_alert last risk src1 t1).1.isFired = true →
      (trigger_alert last risk src1 t1).2 risk = some t1 ∧
      (t2 - t1 < cooldownOf risk →
        trigger_alert ((trigger_alert last risk src1 t1).2) risk src2 t2
          = (.suppressed risk, (trigger_alert last risk src1 t1).2)) ∧
      (cooldownOf risk ≤ t2 - t1 →
        (trigger_alert ((trigger_alert last risk src1 t1).2)
            risk src2 t2).1.isFired = true ∧
        (trigger_alert ((trigger_alert last risk src1 t1).2)
            risk src2 t2).2 risk = some t2) := by
  refine ⟨by simp [cooldownOf, COOLDOWN_SECONDS],
          by simp [cooldownOf, COOLDOWN_SECONDS],
          by simp [cooldownOf, COOLDOWN_SECONDS],
          fun last risk src1 src2 t1 t2 h => ?_⟩
  have hst := trigger_alert_fired_state last risk src1 t1 h
  set s1 := (trigger_alert last risk src1 t1).2 with hs1
  have hkey : s1 risk = some t1 := by rw [hst]; simp [alertUpdate]
  clear hs1 hst h
  refine ⟨hkey, fun hlt => ?_, fun hge => ?_⟩
  · simp [trigger_alert, hkey, hlt]
  · have hnot : ¬ (t2 - t1 < cooldownOf risk) := not_lt.mpr hge
    simp [trigger_alert, hkey, hnot, AlertResult.isFired, alertUpdate]

/-- Witness for `cooldown_suppression_spec`: on an empty tracker a
CRITICAL alert at `t=0` fires, and the theorem then gives suppression at
`t=2` (within the 3-second cooldown) with the tracker still at 0. -/
theorem cooldown_suppression_spec_witness :
    (trigger_alert (fun _ => none) "CRITICAL" "FUSION" 0).2 "CRITICAL"
        = some 0 ∧
    trigger_alert ((trigger_alert (fun _ => none) "CRITICAL" "FUSION" 0).2)
        "CRITICAL" "FUSION" 2
      = (.suppressed "CRITICAL",
         (trigger_alert (fun _ => none) "CRITICAL" "FUSION" 0).2) :=
  ⟨(cooldown_suppression_spec.2.2.2 (fun _ => none) "CRITICAL" "FUSION"
      "FUSION" 0 2 (by simp [trigger_alert, AlertResult.isFired])).1,
   (cooldown_suppression_spec.2.2.2 (fun _ => none) "CRITICAL" "FUSION"
      "FUSION" 0 2 (by simp [trigger_alert, AlertResult.isFired])).2.1
     (by simp [cooldownOf, COOLDOWN_SECONDS]; norm_num)⟩

/-- C10: a risk-level string outside NORMAL/WARNING/CRITICAL is handled
without failure: the cooldown falls back to the 5-second default, a
never-before-seen key fires and is recorded in the tracker under that
string, and the returned dict has message "Unknown risk level", empty
action text, `suppressed = false`, and no beep thread is started. -/
theorem unknown_risk_spec :
    ∀ (last : AlertState) (risk src : String) (now : ℚ),
      risk ≠ "NORMAL" → risk ≠ "WARNING" → risk ≠ "CRITICAL" →
      cooldownOf risk = 5 ∧
      (last risk = none →
        trigger_alert last risk src now =
          (.fired { timestamp := now, risk_level := risk, source := src,
                    message := "Unknown risk level", action := "",
                    suppressed := false } false,
           alertUpdate last risk now)) ∧
      (∀ t, last risk = some t → now - t < 5 →
        trigger_alert last risk src now = (.suppressed risk, last)) := by
  intro last risk src now h1 h2 h3
  refine ⟨by simp [cooldownOf, COOLDOWN_SECONDS, h1, h2, h3],
          fun hnone => ?_, fun t ht hlt => ?_⟩
  · simp [trigger_alert, hnone, messagesGet, actionsGet, h1, h2, h3]
  · have hc : cooldownOf risk = 5 := by
      simp [cooldownOf, COOLDOWN_SECONDS, h1, h2, h3]
    simp [trigger_alert, ht, hc, hlt]

/-- Witness for `unknown_risk_spec` at the string "ELEVATED" on an empty
tracker. -/
theorem unknown_risk_spec_witness :
    cooldownOf "ELEVATED" = 5 ∧
    trigger_alert (fun _ => none) "ELEVATED" "TEST" 0 =
      (.fired { timestamp := 0, risk_level := "ELEVATED", source := "TEST",
                message := "Unknown risk level", action := "",
                suppressed := false } false,
       alertUpdate (fun _ => none) "ELEVATED" 0) :=
  ⟨(unknown_risk_spec (fun _ => none) "ELEVATED" "TEST" 0
      (by simp) (by simp) (by simp)).1,
   (unknown_risk_spec (fun _ => none) "ELEVATED" "TEST" 0
      (by simp) (by simp) (by simp)).2.1 rfl⟩

end DriverSafety

namespace DriverSafety

/-! ## Vitals fusion model (`heart_rate_model.py`)

`predict` scales the feature vector and queries the two trained
classifiers; both are external (out of scope here) and only their
three-class probability vectors enter the arithmetic below, which is the
part `_fuse_predictions` and `predict` perform on them.  A probability
vector is a triple, indexed 0 = NORMAL, 1 = WARNING, 2 = CRITICAL. -/

/-- The `RISK_LABELS` dict (keys 0, 1, 2). -/
def RISK_LABELS (n : ℕ) : String :=
  if n = 0 then "NORMAL" else if n = 1 then "WARNING" else "CRITICAL"

/-- The weighted sum `(rf_weight * rf_proba) + (gb_weight * gb_proba)`
with the fixed defaults `rf_weight=0.45`, `gb_weight=0.55`,
component-wise over the three classes. -/
def fuseCombined (rf gb : ℚ × ℚ × ℚ) : ℚ × ℚ × ℚ :=
  (45/100 * rf.1 + 55/100 * gb.1,
   45/100 * rf.2.1 + 55/100 * gb.2.1,
   45/100 * rf.2.2 + 55/100 * gb.2.2)

/-- Component access by index (index 2 and above reach the last
component; the source only ever indexes 0, 1, 2). -/
def nth3 (c : ℚ × ℚ × ℚ) : ℕ → ℚ
  | 0 => c.1
  | 1 => c.2.1
  | _ => c.2.2

/-- `np.argmax` over one 3-vector: index of the first maximal component. -/
def argmax3 (c : ℚ × ℚ × ℚ) : ℕ :=
  if c.2.1 ≤ c.1 ∧ c.2.2 ≤ c.1 then 0
  else if c.2.2 ≤ c.2.1 then 1
  else 2

/-- The largest component, as Python `max` over the combined vector. -/
def max3 (c : ℚ × ℚ × ℚ) : ℚ := max c.1 (max c.2.1 c.2.2)

/-- `DriverHealthModel._fuse_predictions` for a single sample: arg-max of
the weighted average. -/
def fuse_predictions (rf gb : ℚ × ℚ × ℚ) : ℕ := argmax3 (fuseCombined rf gb)

/-- The fields of the dict returned by `DriverHealthModel.predict` that
depend on the classifier outputs (the echoed raw vitals are omitted). -/
structure PredictOut where
  risk_label : ℕ
  risk_level : String
  confidence : ℚ
deriving DecidableEq, Repr

/-- The classification part of `DriverHealthModel.predict`: fused label,
its name, and `confidence = round(max(combined) * 100, 1)`. -/
def predict (rf gb : ℚ × ℚ × ℚ) : PredictOut :=
  { risk_label := fuse_predictions rf gb,
    risk_level := RISK_LABELS (fuse_predictions rf gb),
    confidence := roundTo 1 (max3 (fuseCombined rf gb) * 100) }

/-- Every component of a 3-vector is bounded by its largest component. -/
theorem nth3_le_max3 (c : ℚ × ℚ × ℚ) (i : ℕ) : nth3 c i ≤ max3 c := by
  obtain ⟨a, b, d⟩ := c
  match i with
  | 0 => exact le_max_left _ _
  | 1 => exact le_trans (le_max_left _ _) (le_max_right _ _)
  | (n + 2) => exact le_trans (le_max_right _ _) (le_max_right _ _)

/-- `argmax3` lands on a maximal component. -/
theorem argmax3_eq_max3 (c : ℚ × ℚ × ℚ) : nth3 c (argmax3 c) = max3 c := by
  obtain ⟨a, b, d⟩ := c
  simp only [argmax3, max3]
  split_ifs with h1 h2
  · exact (max_eq_left (max_le h1.1 h1.2)).symm
  · rw [not_and_or] at h1
    have hb : max b d = b := max_eq_left h2
    show b = max a (max b d)
    rw [hb]
    rcases h1 with h | h
    · exact (max_eq_right (le_of_lt (not_le.mp h))).symm
    · exact (max_eq_right (le_trans (le_of_lt (not_le.mp h)) h2)).symm
  · rw [not_and_or] at h1
    have hd : max b d = d := max_eq_right (le_of_lt (not_le.mp h2))
    show d = max a (max b d)
    rw [hd]
    rcases h1 with h | h
    · refine (max_eq_right ?_).symm
      exact le_trans (le_of_lt (not_le.mp h)) (le_of_lt (not_le.mp h2))
    · exact (max_eq_right (le_of_lt (not_le.mp h))).symm

/-- C3: the fused prediction is the component-wise weighted average
`0.45·P_a + 0.55·P_b`, the selected label is an index of maximal combined
probability (the first one on ties), and the confidence is that maximum
times 100 rounded to one decimal; on `P_a = [0.1, 0.8, 0.1]`,
`P_b = [0.0, 0.2, 0.8]` the combined vector is `[0.045, 0.47, 0.485]`,
the label is 2 (CRITICAL) and the confidence 48.5. -/
theorem fusion_spec :
    (∀ (rf gb : ℚ × ℚ × ℚ) (i : ℕ),
      nth3 (fuseCombined rf gb) i =
        45/100 * nth3 rf i + 55/100 * nth3 gb i) ∧
    (∀ (rf gb : ℚ × ℚ × ℚ) (i : ℕ),
      nth3 (fuseCombined rf gb) i ≤
        nth3 (fuseCombined rf gb) (fuse_predictions rf gb)) ∧
    (∀ rf gb : ℚ × ℚ × ℚ,
      (predict rf gb).confidence =
        roundTo 1 (nth3 (fuseCombined rf gb) (fuse_predictions rf gb) * 100)) ∧
    fuseCombined (1/10, 8/10, 1/10) (0, 2/10, 8/10)
      = (45/1000, 47/100, 485/1000) ∧
    predict (1/10, 8/10, 1/10) (0, 2/10, 8/10)
      = { risk_label := 2, risk_level := "CRITICAL", confidence := 485/10 } := by
  refine ⟨?_, ?_, ?_, ?_, ?_⟩
  · rintro ⟨a, b, d⟩ ⟨a2, b2, d2⟩ i
    match i with
    | 0 => simp [nth3, fuseCombined]
    | 1 => simp [nth3, fuseCombined]
    | (n + 2) => simp [nth3, fuseCombined]
  · intro rf gb i
    rw [fuse_predictions, argmax3_eq_max3]
    exact nth3_le_max3 _ _
  · intro rf gb
    rw [predict, fuse_predictions, argmax3_eq_max3]
  · norm_num [fuseCombined]
  · norm_num [predict, fuse_predictions, argmax3, fuseCombined, max3,
      RISK_LABELS, roundTo, bankerRound, PredictOut.mk.injEq]

end DriverSafety

namespace DriverSafety

/-! ## Risk aggregation

The sources contain no function combining a geometry tier and a vitals
tier: `app.py`'s `get_risk_level` derives one tier directly from raw
sensor readings and threshold sliders.  The `aggregate` operation below is
therefore modelled from the design document, not from source code. -/

/-- The risk tiers, totally ordered by severity. -/
inductive RiskTier where
  | NORMAL
  | WARNING
  | CRITICAL
deriving DecidableEq, Repr, Fintype

/-- Severity rank: NORMAL < WARNING < CRITICAL. -/
def RiskTier.sev : RiskTier → ℕ
  | .NORMAL => 0
  | .WARNING => 1
  | .CRITICAL => 2

/-- The failure mode of aggregation with no inputs. -/
inductive AggError where
  | NoSignal
deriving DecidableEq, Repr

/-- The more severe of two tiers. -/
def tierMax (a b : RiskTier) : RiskTier := if a.sev ≤ b.sev then b else a

/-- Modelled from the spec: the design document's `RiskAggregator.aggregate`
(absent from the sources) — "take the maximum severity of whichever inputs
are present (missing input is simply excluded, not treated as NORMAL).
If both inputs absent, fails with NoSignal." -/
def aggregate :
    Option RiskTier → Option RiskTier → Except AggError RiskTier
  | none, none => .error .NoSignal
  | some g, none => .ok g
  | none, some v => .ok v
  | some g, some v => .ok (tierMax g v)

/-- C5: aggregation returns the maximum severity over the inputs that are
present, a missing input is excluded rather than read as NORMAL, both
inputs missing fail with NoSignal, and in particular
`aggregate WARNING CRITICAL = CRITICAL` and
`aggregate none WARNING = WARNING`. -/
theorem aggregate_spec :
    (∀ a b : RiskTier,
      aggregate (some a) (some b) = .ok (tierMax a b) ∧
      (tierMax a b).sev = max a.sev b.sev ∧
      (tierMax a b = a ∨ tierMax a b = b)) ∧
    (∀ b : RiskTier, aggregate none (some b) = .ok b) ∧
    (∀ a : RiskTier, aggregate (some a) none = .ok a) ∧
    aggregate none none = .error .NoSignal ∧
    aggregate (some .WARNING) (some .CRITICAL) = .ok .CRITICAL ∧
    aggregate none (some .WARNING) = .ok .WARNING := by
  refine ⟨fun a b => ?_, fun b => rfl, fun a => rfl, rfl, rfl, rfl⟩
  cases a <;> cases b <;>
    simp [aggregate, tierMax, RiskTier.sev]

end DriverSafety

namespace DriverSafety

/-! ## Landmark geometry (`detect_drowsiness.py`, EAR and MAR)

Landmark points are 2-D real points; `dist.euclidean` is the Euclidean
distance.  The source divides floats without a guard, so the value of one
EAR/MAR computation is modelled as an IEEE-style outcome: a finite real,
positive infinity (positive numerator over zero), or NaN (zero over
zero).  The numerators here are sums of distances, hence never negative,
so negative infinity cannot arise. -/

/-- Outcome of one floating-point division in the source. -/
inductive FVal where
  | finite (x : ℝ)
  | inf
  | nan

/-- `scipy.spatial.distance.euclidean` on 2-D points. -/
noncomputable def euclidean (p q : ℝ × ℝ) : ℝ :=
  Real.sqrt ((p.1 - q.1) ^ 2 + (p.2 - q.2) ^ 2)

open Classical in
/-- Float division with a non-negative numerator as the source performs
it: a zero denominator yields infinity (NaN when the numerator is also
zero) rather than raising. -/
noncomputable def fdiv (n d : ℝ) : FVal :=
  if d = 0 then (if n = 0 then .nan else .inf) else .finite (n / d)

/-- `eye_aspect_ratio(eye)`: `(‖p1-p5‖ + ‖p2-p4‖) / (2 ‖p0-p3‖)`. -/
noncomputable def eye_aspect_ratio (eye : Fin 6 → ℝ × ℝ) : FVal :=
  fdiv (euclidean (eye 1) (eye 5) + euclidean (eye 2) (eye 4))
    (2 * euclidean (eye 0) (eye 3))

/-- `mouth_aspect_ratio(mouth)` over the 20-point mouth slice
(landmarks 48–67): three vertical lip distances over three times the
horizontal width. -/
noncomputable def mouth_aspect_ratio (mouth : Fin 20 → ℝ × ℝ) : FVal :=
  fdiv (euclidean (mouth 13) (mouth 19) + euclidean (mouth 14) (mouth 18) +
      euclidean (mouth 15) (mouth 17))
    (3 * euclidean (mouth 12) (mouth 16))

/-- The geometry failure kind named by the design document. -/
inductive GeomError where
  | DegenerateGeometry
  | MalformedLandmarks
deriving DecidableEq, Repr

open Classical in
/-- Modelled from the spec: the guarded EAR the design document requires
(absent from the source, which divides unconditionally) — fail with
`DegenerateGeometry` on a zero-width denominator. -/
noncomputable def ear_guarded (eye : Fin 6 → ℝ × ℝ) : Except GeomError ℝ :=
  if euclidean (eye 0) (eye 3) = 0 then .error .DegenerateGeometry
  else .ok ((euclidean (eye 1) (eye 5) + euclidean (eye 2) (eye 4)) /
    (2 * euclidean (eye 0) (eye 3)))

/-- A distance is never negative. -/
theorem euclidean_nonneg (p q : ℝ × ℝ) : 0 ≤ euclidean p q :=
  Real.sqrt_nonneg _

/-- The distance from a point to itself is zero. -/
theorem euclidean_self (p : ℝ × ℝ) : euclidean p p = 0 := by
  simp [euclidean]

/-- An eye contour with coincident horizontal corners (`p0 = p3`) but open
lids: the denominator is zero while the numerator is 2. -/
noncomputable def degenerateEye : Fin 6 → ℝ × ℝ
  | 1 => (0, 1)
  | 2 => (0, 1)
  | _ => (0, 0)

/-- An axis-aligned closed eye of width 1: `p0 = (0,0)`, `p3 = (1,0)`,
all four lid points at the origin. -/
noncomputable def unitEye : Fin 6 → ℝ × ℝ
  | 3 => (1, 0)
  | _ => (0, 0)

end DriverSafety

namespace DriverSafety

/-- With a non-zero horizontal width, the source EAR division lands in the
finite branch. -/
theorem eye_ar_of_ne (eye : Fin 6 → ℝ × ℝ)
    (h : euclidean (eye 0) (eye 3) ≠ 0) :
    eye_aspect_ratio eye = .finite
      ((euclidean (eye 1) (eye 5) + euclidean (eye 2) (eye 4)) /
        (2 * euclidean (eye 0) (eye 3))) := by
  rw [eye_aspect_ratio, fdiv, if_neg (mul_ne_zero two_ne_zero h)]

/-- C6 counterexample: on an eye contour whose horizontal corners
coincide (`p0 = p3`) with open lids, the source computes infinity — the
division is unguarded — whereas the guarded version the claim describes
would fail with `DegenerateGeometry`. -/
theorem ear_unguarded_cex :
    eye_aspect_ratio degenerateEye = FVal.inf ∧
    ear_guarded degenerateEye = .error .DegenerateGeometry := by
  have hC : euclidean (degenerateEye 0) (degenerateEye 3) = 0 := by
    show euclidean (0, 0) (0, 0) = 0
    exact euclidean_self _
  have hA : euclidean (degenerateEye 1) (degenerateEye 5) = 1 := by
    show euclidean (0, 1) (0, 0) = 1
    simp [euclidean]
  have hB : euclidean (degenerateEye 2) (degenerateEye 4) = 1 := by
    show euclidean (0, 1) (0, 0) = 1
    simp [euclidean]
  constructor
  · rw [eye_aspect_ratio, hA, hB, hC, fdiv]
    norm_num
  · rw [ear_guarded, if_pos hC]

/-- C6 amended: the EAR/MAR computations divide without a zero-denominator
guard.  With a non-zero horizontal denominator the result is the finite
ratio; with a zero denominator the result is floating infinity, or NaN
when the vertical distances are also zero — not a `DegenerateGeometry`
failure. -/
theorem ear_mar_division_spec :
    (∀ eye : Fin 6 → ℝ × ℝ,
      (euclidean (eye 0) (eye 3) ≠ 0 →
        eye_aspect_ratio eye = .finite
          ((euclidean (eye 1) (eye 5) + euclidean (eye 2) (eye 4)) /
            (2 * euclidean (eye 0) (eye 3)))) ∧
      (euclidean (eye 0) (eye 3) = 0 →
        eye_aspect_ratio eye = .inf ∨ eye_aspect_ratio eye = .nan)) ∧
    (∀ mouth : Fin 20 → ℝ × ℝ,
      (euclidean (mouth 12) (mouth 16) ≠ 0 →
        mouth_aspect_ratio mouth = .finite
          ((euclidean (mouth 13) (mouth 19) + euclidean (mouth 14) (mouth 18)
              + euclidean (mouth 15) (mouth 17)) /
            (3 * euclidean (mouth 12) (mouth 16)))) ∧
      (euclidean (mouth 12) (mouth 16) = 0 →
        mouth_aspect_ratio mouth = .inf ∨ mouth_aspect_ratio mouth = .nan)) := by
  constructor
  · intro eye
    constructor
    · exact eye_ar_of_ne eye
    · intro h
      rw [eye_aspect_ratio, fdiv]
      rw [h, mul_zero, if_pos rfl]
      by_cases hn :
          euclidean (eye 1) (eye 5) + euclidean (eye 2) (eye 4) = 0
      · right; rw [if_pos hn]
      · left; rw [if_neg hn]
  · intro mouth
    constructor
    · intro h
      rw [mouth_aspect_ratio, fdiv, if_neg (mul_ne_zero three_ne_zero h)]
    · intro h
      rw [mouth_aspect_ratio, fdiv]
      rw [h, mul_zero, if_pos rfl]
      by_cases hn :
          euclidean (mouth 13) (mouth 19) + euclidean (mouth 14) (mouth 18)
            + euclidean (mouth 15) (mouth 17) = 0
      · right; rw [if_pos hn]
      · left; rw [if_neg hn]

/-- Witness for `ear_mar_division_spec`: the finite branch on a width-1
eye and the unguarded branch on the degenerate eye. -/
theorem ear_mar_division_spec_witness :
    eye_aspect_ratio unitEye = .finite
      ((euclidean (unitEye 1) (unitEye 5) + euclidean (unitEye 2) (unitEye 4)) /
        (2 * euclidean (unitEye 0) (unitEye 3))) ∧
    (eye_aspect_ratio degenerateEye = .inf ∨
      eye_aspect_ratio degenerateEye = .nan) :=
  ⟨(ear_mar_division_spec.1 unitEye).1 (by
      show euclidean (0, 0) (1, 0) ≠ 0
      have : euclidean (0, 0) (1, 0) = 1 := by simp [euclidean]
      rw [this]; exact one_ne_zero),
   (ear_mar_division_spec.1 degenerateEye).2 (by
      show euclidean (0, 0) (0, 0) = 0
      exact euclidean_self _)⟩

/-- C8: on any 6-point eye contour with non-zero horizontal width the
source EAR is the finite value `(‖p1-p5‖ + ‖p2-p4‖) / (2 ‖p0-p3‖)`, which
is non-negative and equals 0 for a perfectly closed eye
(`p1 = p5`, `p2 = p4`). -/
theorem ear_formula_spec :
    ∀ eye : Fin 6 → ℝ × ℝ, euclidean (eye 0) (eye 3) ≠ 0 →
      eye_aspect_ratio eye = .finite
        ((euclidean (eye 1) (eye 5) + euclidean (eye 2) (eye 4)) /
          (2 * euclidean (eye 0) (eye 3))) ∧
      0 ≤ (euclidean (eye 1) (eye 5) + euclidean (eye 2) (eye 4)) /
          (2 * euclidean (eye 0) (eye 3)) ∧
      (eye 1 = eye 5 → eye 2 = eye 4 →
        (euclidean (eye 1) (eye 5) + euclidean (eye 2) (eye 4)) /
          (2 * euclidean (eye 0) (eye 3)) = 0) := by
  intro eye h
  refine ⟨eye_ar_of_ne eye h, ?_, fun h15 h24 => ?_⟩
  · refine div_nonneg (add_nonneg (euclidean_nonneg _ _) (euclidean_nonneg _ _)) ?_
    have := euclidean_nonneg (eye 0) (eye 3)
    linarith
  · rw [h15, h24, euclidean_self, euclidean_self]
    simp

/-- Witness for `ear_formula_spec` at the closed width-1 eye: the EAR is
the finite value 0. -/
theorem ear_formula_spec_witness :
    eye_aspect_ratio unitEye = .finite
      ((euclidean (unitEye 1) (unitEye 5) + euclidean (unitEye 2) (unitEye 4)) /
        (2 * euclidean (unitEye 0) (unitEye 3))) ∧
    0 ≤ (euclidean (unitEye 1) (unitEye 5) + euclidean (unitEye 2) (unitEye 4)) /
        (2 * euclidean (unitEye 0) (unitEye 3)) ∧
    (unitEye 1 = unitEye 5 → unitEye 2 = unitEye 4 →
      (euclidean (unitEye 1) (unitEye 5) + euclidean (unitEye 2) (unitEye 4)) /
        (2 * euclidean (unitEye 0) (unitEye 3)) = 0) :=
  ear_formula_spec unitEye (by
    show euclidean (0, 0) (1, 0) ≠ 0
    have : euclidean (0, 0) (1, 0) = 1 := by simp [euclidean]
    rw [this]; exact one_ne_zero)

end DriverSafety
